import Mathlib

/-!
Verification of the CISA CPCON/CAPRI scoring engine (file `src/cisa_cpcon/mapper.py`).

We shallowly embed the scoring pipeline: the composite score `compute_css`,
the blended contextual score `compute_ori_prime`, the threshold mapping
`map_cpcon`, the override resolution `apply_overrides`, and the driver
`process_alert`.  Python floats are modelled as rationals; Python
`round(x, 3)` is modelled as `round3` below.  Python dict inputs are modelled
as follows: the alert-metadata dict becomes a structure of optional fields
read with the same defaults as the `dict.get` calls in the source; the score
dict becomes an association list of string keys, and the keyword expansion
`compute_css(**scores)` becomes `callComputeCss`, which succeeds exactly when
the keys are precisely the seven required parameter names (Python raises
`TypeError` both for a missing parameter and for an unexpected keyword
argument).
-/

namespace CisaCpcon

/-- Python `round(x, 3)` on rationals: round to 3 decimal places.
(Python rounds ties to even; no value in this development sits on a tie,
so the tie-breaking direction is irrelevant to every theorem below.) -/
def round3 (x : ℚ) : ℚ := (round (x * 1000) : ℚ) / 1000

/-- The function `compute_css` of `mapper.py`:
`round(0.20*P + 0.15*X + 0.15*S + 0.15*U + 0.10*K + 0.15*C + 0.10*A, 3)`. -/
def compute_css (P X S U K C A : ℚ) : ℚ :=
  round3 (0.20 * P + 0.15 * X + 0.15 * S + 0.15 * U + 0.10 * K + 0.15 * C + 0.10 * A)

/-- The function `compute_ori_prime` of `mapper.py`: `None` when any of `I`,
`b`, `Ehat` is `None`, otherwise
`round(0.40*I + 0.20*b + 0.15*Ehat + 0.25*CSS, 3)`. -/
def compute_ori_prime (I b Ehat : Option ℚ) (CSS : ℚ) : Option ℚ :=
  match I, b, Ehat with
  | some i, some bv, some e => some (round3 (0.40 * i + 0.20 * bv + 0.15 * e + 0.25 * CSS))
  | _, _, _ => none

/-- The function `map_cpcon` of `mapper.py`: the threshold step function onto
levels 1–5. -/
def map_cpcon (ori_or_css : ℚ) : ℕ :=
  if ori_or_css < 0.20 then 5
  else if ori_or_css < 0.40 then 4
  else if ori_or_css < 0.60 then 3
  else if ori_or_css < 0.80 then 2
  else 1

/-- The alert-metadata dict: each scoring-relevant key may be present or
absent.  A call `alert_meta.get(key, default)` in the source becomes
`Option.getD`. -/
structure AlertMeta where
  posture : Option String
  sector_match : Option Bool
  urgency : Option String
  critical_functions : Option Bool
  observed_exploitation : Option String
deriving Repr, DecidableEq

/-- One override record appended by `apply_overrides`. -/
structure Override where
  name : String
  pre_level : ℕ
  post_level : ℕ
  reason : String
deriving Repr, DecidableEq

/-- Result triple of `apply_overrides`: `(final_level, floor, overrides)`. -/
structure OverridesResult where
  final_level : ℕ
  floor_level : ℕ
  overrides : List Override
deriving Repr, DecidableEq

/-- The function `apply_overrides` of `mapper.py`, line by line: a floor
starting at 5, three sequential conditionals each lowering the floor and
appending a record, then `final_level = min(base_level, floor)`. -/
def apply_overrides (alert_meta : AlertMeta) (CSS : ℚ) (base_level : ℕ) :
    OverridesResult :=
  let posture := alert_meta.posture.getD "None/Other"
  let S : ℚ := if alert_meta.sector_match.getD false then 1.0 else 0.0
  let urgency := alert_meta.urgency.getD "unspecified"
  let C := alert_meta.critical_functions.getD false
  let X := alert_meta.observed_exploitation.getD "unspecified"
  let floor0 : ℕ := 5
  let ovs0 : List Override := []
  let fire1 := posture = "Shields Up" ∧ S ≥ 0.7
  let floor1 := if fire1 then min floor0 3 else floor0
  let ovs1 := if fire1 then
      ovs0 ++ [⟨"shields_up_sector_match", base_level, 3,
               "Shields Up posture targeting this sector"⟩] else ovs0
  let fire2 := urgency = "bod_or_emergency" ∧ CSS ≥ 0.8
  let floor2 := if fire2 then min floor1 2 else floor1
  let ovs2 := if fire2 then
      ovs1 ++ [⟨"bod_urgency_css", base_level, 2,
               "BOD urgency and high CSS"⟩] else ovs1
  let fire3 := C = true ∧ X ∈ ["confirmed", "likely"]
  let floor3 := if fire3 then min floor2 2 else floor2
  let ovs3 := if fire3 then
      ovs2 ++ [⟨"critical_exploitation", base_level, 2,
               "Critical functions with exploitation evidence"⟩] else ovs2
  ⟨min base_level floor3, floor3, ovs3⟩

/-- The optional `cvss_context` dict: each of `I`, `b`, `Ehat` may be absent. -/
structure CvssContext where
  I : Option ℚ
  b : Option ℚ
  Ehat : Option ℚ
deriving Repr, DecidableEq

/-- The seven keyword parameters of `compute_css`. -/
def requiredKeys : List String := ["P", "X", "S", "U", "K", "C", "A"]

/-- Dict lookup on the score mapping (first matching key). -/
def lookupScore (scores : List (String × ℚ)) (k : String) : Option ℚ :=
  (scores.find? (fun p => p.fst = k)).map Prod.snd

/-- The call `compute_css(**scores)`: keyword expansion of a dict.  It
produces a value exactly when every one of the seven parameters is bound and
no unexpected keyword is present; otherwise Python raises `TypeError`,
modelled as `none`. -/
def callComputeCss (scores : List (String × ℚ)) : Option ℚ :=
  match lookupScore scores "P", lookupScore scores "X", lookupScore scores "S",
        lookupScore scores "U", lookupScore scores "K", lookupScore scores "C",
        lookupScore scores "A" with
  | some P, some X, some S, some U, some K, some C, some A =>
      if (scores.map Prod.fst).all (fun k => requiredKeys.contains k) then
        some (compute_css P X S U K C A)
      else none
  | _, _, _, _, _, _, _ => none

/-- The result dict of `process_alert`, flattened: the echoed scores with
`CSS` appended, the echoed context fields with `ORI_prime` and the
`provided` flag, and the `cpcon` block with the override list. -/
structure ScoringResult where
  scores_out : List (String × ℚ)
  css : ℚ
  I : Option ℚ
  b : Option ℚ
  Ehat : Option ℚ
  ORI_prime : Option ℚ
  provided : Bool
  base_level : ℕ
  final_level : ℕ
  floor_level : ℕ
  mapping_thresholds : List ℚ
  rationale : String
  overrides_applied : List Override
deriving Repr, DecidableEq

/-- The rationale expression of `process_alert`: the reason of the first
override record if any fired, else the generic fallback string (the
apostrophe of the source string is written as an escape). -/
def rationaleOf (overrides : List Override) : String :=
  match overrides with
  | o :: _ => o.reason
  | [] => "Base CPCON derived from ORI\x27 or CSS"

/-- The function `process_alert` of `mapper.py`.  Here `none` models the
`TypeError` raised by `compute_css(**scores)` on a malformed score dict;
every other path is total. -/
def process_alert (alert_meta : AlertMeta) (scores : List (String × ℚ))
    (cvss_context : Option CvssContext) : Option ScoringResult :=
  match callComputeCss scores with
  | none => none
  | some CSS =>
    let I := match cvss_context with | some c => c.I | none => none
    let b := match cvss_context with | some c => c.b | none => none
    let Ehat := match cvss_context with | some c => c.Ehat | none => none
    let ORI_prime := if I.isSome then compute_ori_prime I b Ehat CSS else none
    let base_input := match ORI_prime with | some o => o | none => CSS
    let base_level := map_cpcon base_input
    let r := apply_overrides alert_meta CSS base_level
    some {
      scores_out := scores ++ [("CSS", CSS)]
      css := CSS
      I := I
      b := b
      Ehat := Ehat
      ORI_prime := ORI_prime
      provided := cvss_context.isSome
      base_level := base_level
      final_level := r.final_level
      floor_level := r.floor_level
      mapping_thresholds := [0.2, 0.4, 0.6, 0.8]
      rationale := rationaleOf r.overrides
      overrides_applied := r.overrides
    }

/-! ### Concrete inputs for the documented scenarios -/

/-- Scenario A metadata: posture "Shields Up", sector_match true,
urgency "bod_or_emergency", critical_functions true,
observed_exploitation "confirmed". -/
def scenarioA_meta : AlertMeta :=
  ⟨some "Shields Up", some true, some "bod_or_emergency", some true, some "confirmed"⟩

/-- Scenario A scores: all seven categories at 1. -/
def scenarioA_scores : List (String × ℚ) :=
  [("P", 1), ("X", 1), ("S", 1), ("U", 1), ("K", 1), ("C", 1), ("A", 1)]

/-- Metadata dict with none of the scoring-relevant keys present. -/
def emptyMeta : AlertMeta := ⟨none, none, none, none, none⟩

/-- Scenario C scores: all seven categories at 0.5. -/
def scenarioC_scores : List (String × ℚ) :=
  [("P", 0.5), ("X", 0.5), ("S", 0.5), ("U", 0.5), ("K", 0.5), ("C", 0.5), ("A", 0.5)]

/-- Scenario C context: I = b = Ehat = 0.9. -/
def scenarioC_ctx : CvssContext := ⟨some 0.9, some 0.9, some 0.9⟩

/-- The full result record produced by `process_alert` on Scenario A
(established below in `scenarioA_processed`). -/
def scenarioA_result : ScoringResult :=
  { scores_out := [("P", 1), ("X", 1), ("S", 1), ("U", 1), ("K", 1), ("C", 1), ("A", 1), ("CSS", 1)]
    css := 1
    I := none
    b := none
    Ehat := none
    ORI_prime := none
    provided := false
    base_level := 1
    final_level := 1
    floor_level := 2
    mapping_thresholds := [0.2, 0.4, 0.6, 0.8]
    rationale := "Shields Up posture targeting this sector"
    overrides_applied :=
      [⟨"shields_up_sector_match", 1, 3, "Shields Up posture targeting this sector"⟩,
       ⟨"bod_urgency_css", 1, 2, "BOD urgency and high CSS"⟩,
       ⟨"critical_exploitation", 1, 2, "Critical functions with exploitation evidence"⟩] }

/-! ### Spec-side description of override resolution

These definitions transcribe the override-resolution section of the
specification (not the source), to be compared with `apply_overrides`. -/

/-- Spec-side firing condition of rule 1: posture is "Shields Up" and the
sector-match indicator (the boolean treated as 1.0/0.0) is at least 0.7. -/
def specFiring1 (m : AlertMeta) : Prop :=
  m.posture.getD "None/Other" = "Shields Up" ∧
    (if m.sector_match.getD false then (1.0 : ℚ) else 0.0) ≥ 0.7

/-- Spec-side firing condition of rule 2: urgency is "bod_or_emergency" and
the CSS is at least 0.8. -/
def specFiring2 (m : AlertMeta) (CSS : ℚ) : Prop :=
  m.urgency.getD "unspecified" = "bod_or_emergency" ∧ CSS ≥ 0.8

/-- Spec-side firing condition of rule 3: critical functions are affected and
observed exploitation is "confirmed" or "likely". -/
def specFiring3 (m : AlertMeta) : Prop :=
  m.critical_functions.getD false = true ∧
    (m.observed_exploitation.getD "unspecified" = "confirmed" ∨
      m.observed_exploitation.getD "unspecified" = "likely")

instance (m : AlertMeta) : Decidable (specFiring1 m) := by
  unfold specFiring1; infer_instance

instance (m : AlertMeta) (CSS : ℚ) : Decidable (specFiring2 m CSS) := by
  unfold specFiring2; infer_instance

instance (m : AlertMeta) : Decidable (specFiring3 m) := by
  unfold specFiring3; infer_instance

/-- The override records the spec says the three rules append, in evaluation
order: each firing rule contributes a record with name, pre_level = base,
post_level = the cap of the rule, and reason. -/
def specOverrideRecords (m : AlertMeta) (CSS : ℚ) (base : ℕ) : List Override :=
  (if specFiring1 m then
    [⟨"shields_up_sector_match", base, 3, "Shields Up posture targeting this sector"⟩] else []) ++
  (if specFiring2 m CSS then
    [⟨"bod_urgency_css", base, 2, "BOD urgency and high CSS"⟩] else []) ++
  (if specFiring3 m then
    [⟨"critical_exploitation", base, 2, "Critical functions with exploitation evidence"⟩] else [])

/-- The caps of the rules that fired, in evaluation order. -/
def specCaps (m : AlertMeta) (CSS : ℚ) : List ℕ :=
  (if specFiring1 m then [3] else []) ++ (if specFiring2 m CSS then [2] else []) ++
    (if specFiring3 m then [2] else [])

/-- The floor described by the spec: the minimum of the caps that fired, or 5
if none fired. -/
def specFloor (m : AlertMeta) (CSS : ℚ) : ℕ := (specCaps m CSS).foldr min 5

/-! ### Helper lemmas -/

lemma lookupScore_nil (k : String) : lookupScore [] k = none := rfl

lemma lookupScore_cons (k1 : String) (v : ℚ) (rest : List (String × ℚ)) (k : String) :
    lookupScore ((k1, v) :: rest) k = if k1 = k then some v else lookupScore rest k := by
  by_cases h : k1 = k
  · simp [lookupScore, List.find?_cons_of_pos, h]
  · simp [lookupScore, List.find?_cons_of_neg, h]

lemma map_cpcon_bounds (x : ℚ) : 1 ≤ map_cpcon x ∧ map_cpcon x ≤ 5 := by
  unfold map_cpcon
  split_ifs <;> omega

lemma apply_overrides_floor (m : AlertMeta) (CSS : ℚ) (b : ℕ) :
    (apply_overrides m CSS b).final_level = min b (apply_overrides m CSS b).floor_level ∧
    2 ≤ (apply_overrides m CSS b).floor_level ∧ (apply_overrides m CSS b).floor_level ≤ 5 := by
  refine ⟨rfl, ?_⟩
  unfold apply_overrides
  by_cases f1 : m.posture.getD "None/Other" = "Shields Up" ∧
      (if m.sector_match.getD false then (1.0 : ℚ) else 0.0) ≥ 0.7 <;>
    by_cases f2 : m.urgency.getD "unspecified" = "bod_or_emergency" ∧ CSS ≥ 0.8 <;>
      by_cases f3 : m.critical_functions.getD false = true ∧
          (m.observed_exploitation.getD "unspecified" = "confirmed" ∨
            m.observed_exploitation.getD "unspecified" = "likely") <;>
        simp [f1, f2, f3]

lemma callComputeCss_some_parts (scores : List (String × ℚ)) (c : ℚ)
    (h : callComputeCss scores = some c) :
    (∀ k ∈ requiredKeys, (lookupScore scores k).isSome) ∧
    ∀ k ∈ scores.map Prod.fst, k ∈ requiredKeys := by
  unfold callComputeCss at h
  split at h
  · next P X S U K C A hP hX hS hU hK hC hA =>
      split at h
      · next hall =>
          constructor
          · intro k hk
            fin_cases hk <;> simp [hP, hX, hS, hU, hK, hC, hA]
          · intro k hk
            have h2 := List.all_eq_true.mp hall k hk
            simpa using h2
      · exact absurd h (by simp)
  · exact absurd h (by simp)

lemma final_level_bounds (m : AlertMeta) (CSS : ℚ) (x : ℚ) :
    (apply_overrides m CSS (map_cpcon x)).final_level ∈ ([1, 2, 3, 4, 5] : List ℕ) ∧
    (apply_overrides m CSS (map_cpcon x)).final_level ≤ map_cpcon x := by
  obtain ⟨h1, h2, h3⟩ := apply_overrides_floor m CSS (map_cpcon x)
  obtain ⟨b1, b2⟩ := map_cpcon_bounds x
  rw [h1]
  simp only [List.mem_cons, List.not_mem_nil, or_false]
  omega

lemma apply_overrides_matches_spec (m : AlertMeta) (CSS : ℚ) (base : ℕ) :
    (apply_overrides m CSS base).overrides = specOverrideRecords m CSS base ∧
    (apply_overrides m CSS base).floor_level = specFloor m CSS := by
  unfold apply_overrides specOverrideRecords specFloor specCaps specFiring1 specFiring2 specFiring3
  by_cases f1 : m.posture.getD "None/Other" = "Shields Up" ∧
      (if m.sector_match.getD false then (1.0 : ℚ) else 0.0) ≥ 0.7 <;>
    by_cases f2 : m.urgency.getD "unspecified" = "bod_or_emergency" ∧ CSS ≥ 0.8 <;>
      by_cases f3 : m.critical_functions.getD false = true ∧
          (m.observed_exploitation.getD "unspecified" = "confirmed" ∨
            m.observed_exploitation.getD "unspecified" = "likely") <;>
        simp [f1, f2, f3]

lemma round3_nonneg {x : ℚ} (h : 0 ≤ x) : 0 ≤ round3 x := by
  unfold round3
  have h1 : (0 : ℤ) ≤ round (x * 1000) := by
    rw [round_eq]
    exact Int.floor_nonneg.mpr (by linarith)
  have h2 : (0 : ℚ) ≤ (round (x * 1000) : ℚ) := by exact_mod_cast h1
  positivity

lemma round3_le_one {x : ℚ} (h : x ≤ 1) : round3 x ≤ 1 := by
  unfold round3
  have h1 : round (x * 1000) ≤ 1000 := by
    rw [round_eq]
    have hm : ⌊x * 1000 + 1 / 2⌋ ≤ ⌊(1 / 2 : ℚ) + (1000 : ℤ)⌋ :=
      Int.floor_le_floor (by push_cast; linarith)
    rw [Int.floor_add_int] at hm
    have hh : ⌊(1 / 2 : ℚ)⌋ = 0 := by
      rw [Int.floor_eq_zero_iff]
      constructor <;> norm_num
    omega
  rw [div_le_one (by norm_num)]
  exact_mod_cast h1

lemma scenarioA_processed :
    process_alert scenarioA_meta scenarioA_scores none = some scenarioA_result := by
  simp only [process_alert, callComputeCss, scenarioA_meta, scenarioA_scores,
    lookupScore_cons, lookupScore_nil, requiredKeys, List.map, List.all, compute_css,
    compute_ori_prime, map_cpcon, apply_overrides, round3, rationaleOf, scenarioA_result]
  norm_num

/-! ### C1 — Scenario A -/

/-- C1 counterexample: in Scenario A the engine returns final_level = 1,
not 2 as the claim states, because the code computes
final_level = min(base_level, floor) = min(1, 2) = 1. -/
theorem C1_final_level_not_two :
    ((process_alert scenarioA_meta scenarioA_scores none).map
      fun r => r.final_level) ≠ some 2 := by
  simp only [process_alert, callComputeCss, scenarioA_meta, scenarioA_scores,
    lookupScore_cons, lookupScore_nil, requiredKeys, List.map, List.all,
    compute_css, compute_ori_prime, map_cpcon, apply_overrides, round3]
  norm_num

/-- C1 amended: Scenario A (all seven scores 1, posture "Shields Up",
sector_match true, urgency "bod_or_emergency", critical_functions true,
observed_exploitation "confirmed", no context) yields CSS = 1.000,
base_level = 1, all three override records in evaluation order (each with
pre_level 1 and the cap of the rule as post_level), floor_level = 2, and
final_level = 1. -/
theorem C1_scenarioA_amended :
    ((process_alert scenarioA_meta scenarioA_scores none).map
      fun r => (r.css, r.base_level, r.overrides_applied, r.floor_level, r.final_level)) =
    some (1, 1,
      [⟨"shields_up_sector_match", 1, 3, "Shields Up posture targeting this sector"⟩,
       ⟨"bod_urgency_css", 1, 2, "BOD urgency and high CSS"⟩,
       ⟨"critical_exploitation", 1, 2, "Critical functions with exploitation evidence"⟩],
      2, 1) := by
  simp only [process_alert, callComputeCss, scenarioA_meta, scenarioA_scores, emptyMeta,
    scenarioC_scores, scenarioC_ctx, lookupScore_cons, lookupScore_nil, requiredKeys,
    List.map, List.all, compute_css, compute_ori_prime, map_cpcon, apply_overrides, round3]
  norm_num

/-! ### C2 — Scenario C -/

/-- C2 counterexample: with all scores 0.5 and context I = b = Ehat = 0.9,
the blended score is 0.800 and the base level is 1, so the claimed triple
(CSS = 0.500, ORI_prime = 0.725, base_level = 2) is false. -/
theorem C2_ori_prime_not_0725 :
    ((process_alert emptyMeta scenarioC_scores (some scenarioC_ctx)).map
      fun r => (r.css, r.ORI_prime, r.base_level)) ≠ some (0.500, some 0.725, 2) := by
  simp only [process_alert, callComputeCss, scenarioA_meta, scenarioA_scores, emptyMeta,
    scenarioC_scores, scenarioC_ctx, lookupScore_cons, lookupScore_nil, requiredKeys,
    List.map, List.all, compute_css, compute_ori_prime, map_cpcon, apply_overrides, round3]
  norm_num

/-- C2 amended: with all seven scores 0.5 and context I = b = Ehat = 0.9,
CSS = 0.500 and the blended score is 0.40(0.9) + 0.20(0.9) + 0.15(0.9)
+ 0.25(0.5) = 0.800, which maps to base_level = 1. -/
theorem C2_scenarioC_amended :
    ((process_alert emptyMeta scenarioC_scores (some scenarioC_ctx)).map
      fun r => (r.css, r.ORI_prime, r.base_level)) = some (0.500, some 0.800, 1) := by
  simp only [process_alert, callComputeCss, scenarioA_meta, scenarioA_scores, emptyMeta,
    scenarioC_scores, scenarioC_ctx, lookupScore_cons, lookupScore_nil, requiredKeys,
    List.map, List.all, compute_css, compute_ori_prime, map_cpcon, apply_overrides, round3]
  norm_num

/-! ### C3 — level invariants -/

/-- C3: every successful evaluation satisfies
final_level = min(base_level, floor_level), floor_level ≤ 5,
final_level ∈ {1,2,3,4,5} and final_level ≤ base_level. -/
theorem C3_level_invariants (m : AlertMeta) (scores : List (String × ℚ))
    (ctx : Option CvssContext) (r : ScoringResult)
    (h : process_alert m scores ctx = some r) :
    r.final_level = min r.base_level r.floor_level ∧ r.floor_level ≤ 5 ∧
    r.final_level ∈ ([1, 2, 3, 4, 5] : List ℕ) ∧ r.final_level ≤ r.base_level := by
  unfold process_alert at h
  split at h
  · exact absurd h (by simp)
  · next CSS hc =>
      simp only [Option.some.injEq] at h
      subst h
      dsimp only
      exact ⟨(apply_overrides_floor m CSS _).1, (apply_overrides_floor m CSS _).2.2,
        (final_level_bounds m CSS _).1, (final_level_bounds m CSS _).2⟩

/-- C3 witness: the invariants instantiated at the Scenario A evaluation. -/
theorem C3_level_invariants_witness :
    scenarioA_result.final_level = min scenarioA_result.base_level scenarioA_result.floor_level ∧
    scenarioA_result.floor_level ≤ 5 ∧
    scenarioA_result.final_level ∈ ([1, 2, 3, 4, 5] : List ℕ) ∧
    scenarioA_result.final_level ≤ scenarioA_result.base_level :=
  C3_level_invariants scenarioA_meta scenarioA_scores none scenarioA_result scenarioA_processed

/-! ### C4 — override resolution -/

/-- C4: in every evaluation, override resolution is a function of the alert
metadata and the CSS only (never the blended score): the override list of the
result is exactly the records of the rules whose spec-side firing conditions
hold at (metadata, CSS) — rule 1 iff posture is "Shields Up" and the
sector-match indicator is at least 0.7, capping at 3; rule 2 iff urgency is
"bod_or_emergency" and CSS ≥ 0.8, capping at 2; rule 3 iff critical functions
with observed exploitation "confirmed" or "likely", capping at 2 — each
record carrying pre_level = base_level and post_level = the cap, and the
floor is the minimum of the fired caps, or 5 if none fired. -/
theorem C4_override_resolution (m : AlertMeta) (scores : List (String × ℚ))
    (ctx : Option CvssContext) (r : ScoringResult)
    (h : process_alert m scores ctx = some r) :
    r.overrides_applied = specOverrideRecords m r.css r.base_level ∧
    r.floor_level = specFloor m r.css := by
  unfold process_alert at h
  split at h
  · exact absurd h (by simp)
  · next CSS hc =>
      simp only [Option.some.injEq] at h
      subst h
      dsimp only
      exact apply_overrides_matches_spec m CSS _

/-- C4 witness: the override-resolution description instantiated at the
Scenario A evaluation. -/
theorem C4_override_resolution_witness :
    scenarioA_result.overrides_applied =
      specOverrideRecords scenarioA_meta scenarioA_result.css scenarioA_result.base_level ∧
    scenarioA_result.floor_level = specFloor scenarioA_meta scenarioA_result.css :=
  C4_override_resolution scenarioA_meta scenarioA_scores none scenarioA_result
    scenarioA_processed

/-! ### C5 — threshold mapping -/

/-- C5: the threshold mapping is the left-inclusive step function of the
spec — below 0.20 gives level 5, [0.20, 0.40) gives 4, [0.40, 0.60) gives 3,
[0.60, 0.80) gives 2, at or above 0.80 gives 1 — including the boundary
values 0.20 ↦ 4, 0.1999 ↦ 5, 0.7999 ↦ 2 and 0.8 ↦ 1. -/
theorem C5_threshold_step (x : ℚ) :
    (x < 0.20 → map_cpcon x = 5) ∧
    (0.20 ≤ x → x < 0.40 → map_cpcon x = 4) ∧
    (0.40 ≤ x → x < 0.60 → map_cpcon x = 3) ∧
    (0.60 ≤ x → x < 0.80 → map_cpcon x = 2) ∧
    (0.80 ≤ x → map_cpcon x = 1) ∧
    map_cpcon 0.20 = 4 ∧ map_cpcon 0.1999 = 5 ∧ map_cpcon 0.7999 = 2 ∧
    map_cpcon 0.8 = 1 := by
  refine ⟨?_, ?_, ?_, ?_, ?_, by norm_num [map_cpcon], by norm_num [map_cpcon],
    by norm_num [map_cpcon], by norm_num [map_cpcon]⟩ <;>
  · intros
    unfold map_cpcon
    split_ifs <;> first | rfl | linarith

/-- C5 witness: the step function instantiated at 0.5, which lies in the
[0.40, 0.60) bucket and maps to level 3. -/
theorem C5_threshold_step_witness : map_cpcon 0.5 = 3 :=
  (C5_threshold_step 0.5).2.2.1 (by norm_num) (by norm_num)

/-! ### C6 — blended-score presence -/

/-- C6: the blended score is present iff all of I, b, Ehat were supplied;
when present it equals the documented weighted blend of the context values
with the CSS rounded to 3 decimals; when absent the base level is mapped
from the CSS instead (no defaulting). -/
theorem C6_blended_presence (m : AlertMeta) (scores : List (String × ℚ))
    (ctx : Option CvssContext) (r : ScoringResult)
    (h : process_alert m scores ctx = some r) :
    (r.ORI_prime.isSome ↔ (r.I.isSome ∧ r.b.isSome ∧ r.Ehat.isSome)) ∧
    (∀ i bv e, r.I = some i → r.b = some bv → r.Ehat = some e →
      r.ORI_prime = some (round3 (0.40 * i + 0.20 * bv + 0.15 * e + 0.25 * r.css))) ∧
    (r.ORI_prime = none → r.base_level = map_cpcon r.css) := by
  unfold process_alert at h
  split at h
  · exact absurd h (by simp)
  · next CSS hc =>
      simp only [Option.some.injEq] at h
      subst h
      rcases ctx with _ | ⟨_ | i, _ | bv, _ | e⟩ <;>
        simp [compute_ori_prime]

/-- C6 witness: the blended-score properties instantiated at the Scenario A
evaluation, where no context was passed. -/
theorem C6_blended_presence_witness :
    (scenarioA_result.ORI_prime.isSome ↔
      (scenarioA_result.I.isSome ∧ scenarioA_result.b.isSome ∧ scenarioA_result.Ehat.isSome)) ∧
    (∀ i bv e, scenarioA_result.I = some i → scenarioA_result.b = some bv →
      scenarioA_result.Ehat = some e →
      scenarioA_result.ORI_prime =
        some (round3 (0.40 * i + 0.20 * bv + 0.15 * e + 0.25 * scenarioA_result.css))) ∧
    (scenarioA_result.ORI_prime = none →
      scenarioA_result.base_level = map_cpcon scenarioA_result.css) :=
  C6_blended_presence scenarioA_meta scenarioA_scores none scenarioA_result
    scenarioA_processed

/-! ### C7 — composite score -/

/-- C7: the composite score is the documented weighted sum rounded to three
decimals; on inputs in [0,1] it stays in [0,1]; all-ones gives 1.000 and
all-zeros gives 0.000; the seven weights sum to 1. -/
theorem C7_css_weighted_sum (P X S U K C A : ℚ)
    (hP : 0 ≤ P ∧ P ≤ 1) (hX : 0 ≤ X ∧ X ≤ 1) (hS : 0 ≤ S ∧ S ≤ 1)
    (hU : 0 ≤ U ∧ U ≤ 1) (hK : 0 ≤ K ∧ K ≤ 1) (hC : 0 ≤ C ∧ C ≤ 1)
    (hA : 0 ≤ A ∧ A ≤ 1) :
    compute_css P X S U K C A =
      round3 (0.20 * P + 0.15 * X + 0.15 * S + 0.15 * U + 0.10 * K + 0.15 * C + 0.10 * A) ∧
    0 ≤ compute_css P X S U K C A ∧ compute_css P X S U K C A ≤ 1 ∧
    compute_css 1 1 1 1 1 1 1 = 1 ∧ compute_css 0 0 0 0 0 0 0 = 0 ∧
    (0.20 + 0.15 + 0.15 + 0.15 + 0.10 + 0.15 + 0.10 : ℚ) = 1 := by
  obtain ⟨hP0, hP1⟩ := hP
  obtain ⟨hX0, hX1⟩ := hX
  obtain ⟨hS0, hS1⟩ := hS
  obtain ⟨hU0, hU1⟩ := hU
  obtain ⟨hK0, hK1⟩ := hK
  obtain ⟨hC0, hC1⟩ := hC
  obtain ⟨hA0, hA1⟩ := hA
  refine ⟨rfl, round3_nonneg (by linarith), round3_le_one (by linarith),
    ?_, ?_, by norm_num⟩
  · unfold compute_css round3
    norm_num
  · unfold compute_css round3
    norm_num

/-- C7 witness: the composite-score properties instantiated at all seven
scores equal to 0.5. -/
theorem C7_css_weighted_sum_witness :
    compute_css 0.5 0.5 0.5 0.5 0.5 0.5 0.5 =
      round3 (0.20 * 0.5 + 0.15 * 0.5 + 0.15 * 0.5 + 0.15 * 0.5 + 0.10 * 0.5 +
        0.15 * 0.5 + 0.10 * 0.5) ∧
    0 ≤ compute_css 0.5 0.5 0.5 0.5 0.5 0.5 0.5 ∧
    compute_css 0.5 0.5 0.5 0.5 0.5 0.5 0.5 ≤ 1 ∧
    compute_css 1 1 1 1 1 1 1 = 1 ∧ compute_css 0 0 0 0 0 0 0 = 0 ∧
    (0.20 + 0.15 + 0.15 + 0.15 + 0.10 + 0.15 + 0.10 : ℚ) = 1 :=
  C7_css_weighted_sum 0.5 0.5 0.5 0.5 0.5 0.5 0.5 ⟨by norm_num, by norm_num⟩
    ⟨by norm_num, by norm_num⟩ ⟨by norm_num, by norm_num⟩ ⟨by norm_num, by norm_num⟩
    ⟨by norm_num, by norm_num⟩ ⟨by norm_num, by norm_num⟩ ⟨by norm_num, by norm_num⟩

/-! ### C8 — missing required score -/

/-- C8: if any of the seven required score keys is missing from the score
dict (including the empty dict), the evaluation fails with no result, and no
default is substituted for the missing score. -/
theorem C8_missing_score_fails (m : AlertMeta) (scores : List (String × ℚ))
    (ctx : Option CvssContext) (k : String) (hk : k ∈ requiredKeys)
    (h : lookupScore scores k = none) :
    process_alert m scores ctx = none := by
  unfold process_alert
  rcases hc : callComputeCss scores with _ | c
  · rfl
  · have hs := (callComputeCss_some_parts scores c hc).1 k hk
    rw [h] at hs
    simp at hs

/-- C8 witness: the empty score dict fails. -/
theorem C8_missing_score_fails_witness : process_alert emptyMeta [] none = none :=
  C8_missing_score_fails emptyMeta [] none "P" (by simp [requiredKeys]) rfl

/-! ### C9 — rationale -/

/-- C9: the rationale of the result is the reason of the first override that
fired (the override list is built in the fixed evaluation order), or the
generic fallback string when none fired, and the override list of the result
is exactly the full list produced by override resolution. -/
theorem C9_rationale_first_fired (m : AlertMeta) (scores : List (String × ℚ))
    (ctx : Option CvssContext) (r : ScoringResult)
    (h : process_alert m scores ctx = some r) :
    (r.overrides_applied = [] → r.rationale = "Base CPCON derived from ORI\x27 or CSS") ∧
    (∀ o rest, r.overrides_applied = o :: rest → r.rationale = o.reason) ∧
    r.overrides_applied = (apply_overrides m r.css r.base_level).overrides := by
  unfold process_alert at h
  split at h
  · exact absurd h (by simp)
  · next CSS hc =>
      simp only [Option.some.injEq] at h
      subst h
      dsimp only
      refine ⟨?_, ?_, rfl⟩
      · intro h0
        rw [h0]
        rfl
      · intro o rest h0
        rw [h0]
        rfl

/-- C9 witness: the rationale properties instantiated at the Scenario A
evaluation, where three overrides fired and the first supplies the text. -/
theorem C9_rationale_first_fired_witness :
    (scenarioA_result.overrides_applied = [] →
      scenarioA_result.rationale = "Base CPCON derived from ORI\x27 or CSS") ∧
    (∀ o rest, scenarioA_result.overrides_applied = o :: rest →
      scenarioA_result.rationale = o.reason) ∧
    scenarioA_result.overrides_applied =
      (apply_overrides scenarioA_meta scenarioA_result.css scenarioA_result.base_level).overrides :=
  C9_rationale_first_fired scenarioA_meta scenarioA_scores none scenarioA_result
    scenarioA_processed

/-! ### C10 — unrecognized score keys -/

/-- C10: a score dict containing a key other than P, X, S, U, K, C, A makes
the evaluation fail even when all seven required scores are present:
unrecognized keys are not ignored. -/
theorem C10_unknown_key_fails (m : AlertMeta) (scores : List (String × ℚ))
    (ctx : Option CvssContext) (k : String) (hk : k ∈ scores.map Prod.fst)
    (hnk : k ∉ requiredKeys) :
    process_alert m scores ctx = none := by
  unfold process_alert
  rcases hc : callComputeCss scores with _ | c
  · rfl
  · exact absurd ((callComputeCss_some_parts scores c hc).2 k hk) hnk

/-- C10 witness: all seven required scores plus an extra key "Z" fails. -/
theorem C10_unknown_key_fails_witness :
    process_alert emptyMeta
      [("P", 1), ("X", 1), ("S", 1), ("U", 1), ("K", 1), ("C", 1), ("A", 1), ("Z", 0)]
      none = none :=
  C10_unknown_key_fails emptyMeta
    [("P", 1), ("X", 1), ("S", 1), ("U", 1), ("K", 1), ("C", 1), ("A", 1), ("Z", 0)]
    none "Z" (by simp) (by simp [requiredKeys])

end CisaCpcon
